import Mathlib

/-!
Shallow embedding of `src/assets/js/lib/portfolio-dual-view.js`.

The script is a single IIFE wiring a dual-mode (carousel / masonry grid)
portfolio viewer.  We embed:

* JavaScript number semantics as far as the script exercises them:
  `parseInt(str, 10)` may return `NaN`, `Math.min` / `Math.max` propagate
  `NaN`, `typeof NaN === 'number'` holds (type `JSNum`);
* the DOM state the script reads and mutates as an explicit record `St`
  (container classes, the two containers' `aria-hidden` attributes, the
  URL hash, pushed history entries, grid children, scroll and event logs);
* every function of the module (`init`, `buildGrid`, `showCarousel`,
  `showGrid`, `showCarouselInitial`, `showGridInitial`,
  `getCurrentCarouselIndex`, the event handlers) as a state transformer.
  `showCarousel` / `showGrid` are split into the synchronous phase and the
  body of the 300 ms `setTimeout` callback, mirroring lines 186-230 and
  251-298 of the source; the composed function is the completed transition.
* module evaluation (lines 9-16 plus `init`) as `runScript`, returning
  `Except String St`: `.error` models an uncaught `TypeError` (the source
  dereferences `carousel` at line 16 and `grid` at line 100 without a
  null guard).
-/

/-- JavaScript number restricted to what the script produces: an integer
or `NaN` (`parseInt` never yields a non-integer here). -/
inductive JSNum where
  | num (n : Int)
  | nan
deriving DecidableEq, Repr

/-- `Math.min`: `NaN` propagates. -/
def jsMin : JSNum → JSNum → JSNum
  | JSNum.nan, _ => JSNum.nan
  | _, JSNum.nan => JSNum.nan
  | JSNum.num a, JSNum.num b => JSNum.num (min a b)

/-- `Math.max`: `NaN` propagates. -/
def jsMax : JSNum → JSNum → JSNum
  | JSNum.nan, _ => JSNum.nan
  | _, JSNum.nan => JSNum.nan
  | JSNum.num a, JSNum.num b => JSNum.num (max a b)

/-- A JavaScript value as passed to `showCarousel`: a number (possibly
`NaN`), `undefined`, or a string.  `typeof` distinguishes the
constructors; crucially `JSVal.num JSNum.nan` still has type `number`. -/
inductive JSVal where
  | num (x : JSNum)
  | undef
  | str (s : String)
deriving DecidableEq, Repr

/-- Numeric value of the decimal digits of `cs`, stopping at the first
non-digit (the behaviour of `parseInt`). -/
def parseDigits : List Char → Nat → Nat
  | [], acc => acc
  | c :: cs, acc => if c.isDigit then parseDigits cs (acc * 10 + (c.toNat - 48)) else acc

/-- Whether a character is JavaScript whitespace that `parseInt` skips. -/
def isJsSpace (c : Char) : Bool :=
  c == ' ' || c == '\t' || c == '\n' || c == '\r'

/-- `parseInt(s, 10)`: skip leading whitespace, optional sign, then the
maximal digit prefix; `NaN` if no digit follows. -/
def jsParseInt (s : String) : JSNum :=
  match s.data.dropWhile isJsSpace with
  | [] => JSNum.nan
  | c :: rest =>
    if c = '-' then
      match rest with
      | [] => JSNum.nan
      | d :: _ => if d.isDigit then JSNum.num (-(parseDigits rest 0 : Int)) else JSNum.nan
    else if c = '+' then
      match rest with
      | [] => JSNum.nan
      | d :: _ => if d.isDigit then JSNum.num (parseDigits rest 0) else JSNum.nan
    else if c.isDigit then JSNum.num (parseDigits (c :: rest) 0)
    else JSNum.nan

/-- `parseInt(el.getAttribute('data-index'), 10)`: a missing attribute is
`null`, which stringifies to `"null"` and parses to `NaN`. -/
def parseIntAttr : Option String → JSNum
  | none => JSNum.nan
  | some s => jsParseInt s

/-- An `<img>` inside a slide card: `src`, `alt`, `srcset`
(empty string = attribute absent / falsy). -/
structure Img where
  src : String
  alt : String
  srcset : String
deriving DecidableEq, Repr

/-- One `.kg-image-card` slide: its bounding-box horizontal extent (as
reported by `getBoundingClientRect`) and its `<img>` child, if any. -/
structure Slide where
  left : Int
  right : Int
  img : Option Img
deriving DecidableEq, Repr

/-- A `.portfolio-grid-item` element built by `buildGrid`: the recorded
`data-index`, `aria-label` and the cloned image fields. -/
structure GridItem where
  dataIndex : Nat
  ariaLabel : String
  src : String
  alt : String
  srcset : String
deriving DecidableEq, Repr

/-- A child appended to the grid container: the Masonry sizer `<div>` or a
grid item (`querySelectorAll('.portfolio-grid-item')` skips the sizer). -/
inductive GridChild where
  | sizer
  | item (g : GridItem)
deriving DecidableEq, Repr

/-- The detail payload of a `portfolio:viewchange` `CustomEvent`. -/
structure Evt where
  view : String
  index : Option JSNum
deriving DecidableEq, Repr

/-- The module-scoped `currentView` flag. -/
inductive View where
  | carousel
  | grid
deriving DecidableEq, Repr

/-- `true` iff the flag reads `'grid'`. -/
def View.isGrid : View → Bool
  | View.grid => true
  | View.carousel => false

/-- The state the script observes and mutates. `aria-hidden` attributes
are `Option Bool` (`none` = attribute never set). `carouselScrolls`,
`gridScrolls`, `pushed` and `dispatched` are append-only logs of
`scrollIntoView` targets, `history.pushState` calls and dispatched
`portfolio:viewchange` events. `timersScheduled` counts `setTimeout`
calls. -/
structure St where
  slides : List Slide
  carouselLeft : Int
  carouselRight : Int
  currentView : View
  isInitialLoad : Bool
  viewVisible : Bool
  viewCarousel : Bool
  viewGrid : Bool
  carouselHidden : Option Bool
  gridHidden : Option Bool
  hash : String
  pushed : List String
  gridChildren : List GridChild
  masonryInited : Bool
  layoutCalls : Nat
  carouselScrolls : List JSNum
  gridScrolls : List Nat
  dispatched : List Evt
  timersScheduled : Nat
  bound : Bool
deriving DecidableEq, Repr

/-- `var totalSlides = slides.length` (line 20): constant for the session
since `slides` is a static `querySelectorAll` result. -/
def St.totalSlides (s : St) : Nat := s.slides.length

/-- The grid items in DOM order, as
`grid.querySelectorAll('.portfolio-grid-item')` returns them. -/
def gridItemsOf (children : List GridChild) : List GridItem :=
  children.filterMap fun c =>
    match c with
    | GridChild.sizer => none
    | GridChild.item g => some g

/-- `slides[i]` for a JavaScript index: `NaN` or out-of-range indexing
yields `undefined`. -/
def slideAt (slides : List Slide) (i : JSNum) : Option Slide :=
  match i with
  | JSNum.nan => none
  | JSNum.num n => if 0 ≤ n then slides.get? n.toNat else none

/-- Lines 187-188 of `showCarousel`:
`index = typeof index === 'number' ? index : 0;`
`index = Math.max(0, Math.min(index, totalSlides - 1));`
Note `NaN` passes the `typeof` test and propagates through the clamp. -/
def resolveIndex (arg : JSVal) (total : Nat) : JSNum :=
  let i := match arg with
           | JSVal.num x => x
           | _ => JSNum.num 0
  jsMax (JSNum.num 0) (jsMin i (JSNum.num ((total : Int) - 1)))

/-- The grid item built at line 108-128 for slide `index` with image `im`
out of `total` slides. -/
def mkGridItem (total index : Nat) (im : Img) : GridItem :=
  { dataIndex := index
    ariaLabel := "View image " ++ toString (index + 1) ++ " of " ++ toString total ++ " in carousel"
    src := im.src
    alt := im.alt
    srcset := im.srcset }

/-- The `slides.forEach` body of `buildGrid` (lines 102-130): slides
without an `<img>` are skipped (`if (!img) return;`); `i` is the index of
the first slide of the remaining list. -/
def buildItemsAux (total : Nat) : Nat → List Slide → List GridItem
  | _, [] => []
  | i, sl :: rest =>
    match sl.img with
    | none => buildItemsAux total (i + 1) rest
    | some im => mkGridItem total i im :: buildItemsAux total (i + 1) rest

/-- `buildGrid` (lines 96-131): append the Masonry sizer, then one grid
item per image-bearing slide, in order. -/
def buildGridChildren (slides : List Slide) : List GridChild :=
  GridChild.sizer :: (buildItemsAux slides.length 0 slides).map GridChild.item

/-- The grid items `buildGrid` leaves in the grid container. -/
def buildGridItems (slides : List Slide) : List GridItem :=
  gridItemsOf (buildGridChildren slides)

/-- Transition duration in ms, matching the stylesheet (line 181). -/
def FADE_DURATION : Nat := 300

/-- The synchronous prefix of `showCarousel` (lines 186-196): resolve the
index, set `currentView = 'carousel'`, remove `view-visible` (start the
fade-out), schedule the 300 ms timer. -/
def showCarouselSync (s : St) : St :=
  { s with currentView := View.carousel
           viewVisible := false
           timersScheduled := s.timersScheduled + 1 }

/-- The body of `showCarousel`'s `setTimeout` callback (lines 196-229):
swap view classes, set ARIA, scroll to the target slide if it exists,
clear the hash (pushing one history entry) only when it is `#grid`,
re-add `view-visible`, dispatch the notification. -/
def showCarouselTimer (idx : JSNum) (s : St) : St :=
  { s with viewGrid := false
           viewCarousel := true
           carouselHidden := some false
           gridHidden := some true
           carouselScrolls := s.carouselScrolls ++
             (match slideAt s.slides idx with
              | some _ => [idx]
              | none => [])
           hash := if s.hash = "#grid" then "" else s.hash
           pushed := s.pushed ++ (if s.hash = "#grid" then [""] else [])
           viewVisible := true
           dispatched := s.dispatched ++ [{ view := "carousel", index := some idx }] }

/-- `showCarousel(index)` (lines 186-230), run to completion of its
timer. -/
def showCarousel (arg : JSVal) (s : St) : St :=
  showCarouselTimer (resolveIndex arg s.totalSlides) (showCarouselSync s)

/-- `getCurrentCarouselIndex` (lines 235-246): the first slide whose
bounding box covers the carousel's horizontal centre, else 0. -/
def getCurrentCarouselIndex (s : St) : Nat :=
  let centerX := s.carouselLeft + (s.carouselRight - s.carouselLeft) / 2
  match s.slides.findIdx? (fun sl => decide (sl.left ≤ centerX ∧ centerX ≤ sl.right)) with
  | some i => i
  | none => 0

/-- The synchronous prefix of `showGrid` (lines 251-258): capture the
current carousel index, set `currentView = 'grid'`, remove `view-visible`,
schedule the timer. -/
def showGridSync (s : St) : St :=
  { s with currentView := View.grid
           viewVisible := false
           timersScheduled := s.timersScheduled + 1 }

/-- The body of `showGrid`'s `setTimeout` callback (lines 261-297): swap
classes, set ARIA, push `#grid` only if the hash differs, refresh Masonry
if the instance exists, scroll to `gridItems[currentIndex]` if it exists,
re-add `view-visible`, dispatch the notification (no index). -/
def showGridTimer (currentIndex : Nat) (s : St) : St :=
  { s with viewCarousel := false
           viewGrid := true
           carouselHidden := some true
           gridHidden := some false
           hash := "#grid"
           pushed := s.pushed ++ (if s.hash = "#grid" then [] else ["#grid"])
           layoutCalls := s.layoutCalls + (if s.masonryInited then 1 else 0)
           gridScrolls := s.gridScrolls ++
             (match (gridItemsOf s.gridChildren).get? currentIndex with
              | some g => [g.dataIndex]
              | none => [])
           viewVisible := true
           dispatched := s.dispatched ++ [{ view := "grid", index := none }] }

/-- `showGrid()` (lines 251-298), run to completion of its timer. -/
def showGrid (s : St) : St :=
  showGridTimer (getCurrentCarouselIndex s) (showGridSync s)

/-- `showCarouselInitial` (lines 66-81): set state, class and ARIA, scroll
to slide 0 if it exists; no URL manipulation, no event. -/
def showCarouselInitial (s : St) : St :=
  { s with currentView := View.carousel
           viewCarousel := true
           carouselHidden := some false
           gridHidden := some true
           carouselScrolls := s.carouselScrolls ++
             (match s.slides.get? 0 with
              | some _ => [JSNum.num 0]
              | none => []) }

/-- `showGridInitial` (lines 86-91): set state, class and ARIA; no URL
manipulation, no event, no scroll. -/
def showGridInitial (s : St) : St :=
  { s with currentView := View.grid
           viewGrid := true
           carouselHidden := some true
           gridHidden := some false }

/-- `handleHashChange` (lines 303-312).  The browser updates
`window.location.hash` before dispatching `hashchange`, so the new hash is
part of the event. -/
def handleHashChange (newHash : String) (s : St) : St :=
  let s := { s with hash := newHash }
  if s.isInitialLoad then s
  else if s.hash = "#grid" then showGrid s
  else showCarousel (JSVal.num (JSNum.num 0)) s

/-- `handleGridClick` (lines 317-323): `found` is whether
`e.target.closest('.portfolio-grid-item')` hit an item; `attr` its
`data-index` attribute (`none` = attribute absent, i.e. `null`). -/
def handleGridClick (found : Bool) (attr : Option String) (s : St) : St :=
  if found then showCarousel (JSVal.num (parseIntAttr attr)) s else s

/-- `handleCloseClick` (lines 328-330). -/
def handleCloseClick (s : St) : St :=
  showGrid s

/-- `handleKeydown` (lines 335-349): Escape while `currentView ===
'carousel'` requests Grid; Enter/Space on a grid item requests Carousel at
the item's parsed `data-index`. -/
def handleKeydown (key : String) (onGridItem : Bool) (attr : Option String) (s : St) : St :=
  if key = "Escape" ∧ s.currentView = View.carousel then showGrid s
  else if (key = "Enter" ∨ key = " ") ∧ onGridItem = true then
    showCarousel (JSVal.num (parseIntAttr attr)) s
  else s

/-- The DOM configuration the script meets at startup: which of the fixed
elements exist, the slide cards inside the carousel, whether the Masonry
library is loaded, the carousel's bounding box and the initial URL hash. -/
structure DomConfig where
  hasContainer : Bool
  hasCarousel : Bool
  hasGrid : Bool
  hasCloseBtn : Bool
  hasMasonry : Bool
  slides : List Slide
  carouselLeft : Int
  carouselRight : Int
  initialHash : String
deriving DecidableEq, Repr

/-- The pristine state before the script mutates anything: no classes, no
ARIA attributes, empty grid, nothing scrolled, pushed, dispatched or
bound; `currentView` starts as `'carousel'` (line 19), `isInitialLoad`
true (line 24). -/
def pristine (d : DomConfig) : St :=
  { slides := d.slides
    carouselLeft := d.carouselLeft
    carouselRight := d.carouselRight
    currentView := View.carousel
    isInitialLoad := true
    viewVisible := false
    viewCarousel := false
    viewGrid := false
    carouselHidden := none
    gridHidden := none
    hash := d.initialHash
    pushed := []
    gridChildren := []
    masonryInited := false
    layoutCalls := 0
    carouselScrolls := []
    gridScrolls := []
    dispatched := []
    timersScheduled := 0
    bound := false }

/-- `init` (lines 29-61) for `totalSlides > 0`, run to completion of the
double `requestAnimationFrame`: build the grid, create the Masonry
instance if the library is present, enter the hash-selected view without
touching the URL, reveal the container, clear `isInitialLoad`, refresh
Masonry if starting in grid view, bind the event listeners. -/
def initFull (d : DomConfig) : St :=
  let s1 := { pristine d with gridChildren := buildGridChildren d.slides
                              masonryInited := d.hasMasonry }
  let s2 := if d.initialHash = "#grid" then showGridInitial s1 else showCarouselInitial s1
  { s2 with viewVisible := true
            isInitialLoad := false
            layoutCalls := s2.layoutCalls +
              (if s2.currentView = View.grid ∧ s2.masonryInited = true then 1 else 0)
            bound := true }

/-- Evaluation of the whole module (lines 5-377).  `Except.error` models
an uncaught `TypeError`:
* no `.portfolio-dual-container`: the IIFE returns at line 10, inert;
* container but no `#portfolio-carousel`: line 16
  (`carousel.querySelectorAll`) dereferences `null` and throws;
* zero slides: `init` returns at line 30, inert;
* no `#portfolio-grid` with at least one slide: `buildGrid` line 100
  (`grid.appendChild`) dereferences `null` and throws. -/
def runScript (d : DomConfig) : Except String St :=
  if d.hasContainer = false then Except.ok (pristine d)
  else if d.hasCarousel = false then Except.error "TypeError: carousel is null"
  else if d.slides.isEmpty then Except.ok (pristine d)
  else if d.hasGrid = false then Except.error "TypeError: grid is null"
  else Except.ok (initFull d)

/-- The events `bindEvents` (lines 354-368) subscribes to. -/
inductive Op where
  | hashChange (newHash : String)
  | gridClick (found : Bool) (attr : Option String)
  | closeClick
  | keydown (key : String) (onGridItem : Bool) (attr : Option String)
deriving DecidableEq, Repr

/-- Dispatch one event to its handler. -/
def applyOp : Op → St → St
  | Op.hashChange h, s => handleHashChange h s
  | Op.gridClick f a, s => handleGridClick f a s
  | Op.closeClick, s => handleCloseClick s
  | Op.keydown k g a, s => handleKeydown k g a s

/-- Run a sequence of events. -/
def applyOps (ops : List Op) (s : St) : St :=
  ops.foldl (fun s op => applyOp op s) s

/-- The ARIA/state agreement invariant: the carousel container is hidden
iff `currentView` is `'grid'`, and the grid container is hidden iff it is
`'carousel'` — so exactly one is hidden and it matches the state. -/
def ariaInv (s : St) : Prop :=
  s.carouselHidden = some s.currentView.isGrid ∧
  s.gridHidden = some (!s.currentView.isGrid)

/-! Concrete fixtures used by witnesses and counterexamples. -/

/-- A slide image fixture. -/
def imgA : Img := { src := "a.jpg", alt := "", srcset := "" }

/-- A slide image fixture with alt text and srcset. -/
def imgB : Img := { src := "b.jpg", alt := "beach", srcset := "b.jpg 2x" }

/-- A slide image fixture. -/
def imgC : Img := { src := "c.jpg", alt := "", srcset := "" }

/-- Three adjacent slides, each 100px wide, all with images. -/
def slidesA : List Slide :=
  [ { left := 0, right := 100, img := some imgA },
    { left := 100, right := 200, img := some imgB },
    { left := 200, right := 300, img := some imgC } ]

/-- Slides where the middle card has no `<img>` child. -/
def slidesMixed : List Slide :=
  [ { left := 0, right := 100, img := some imgA },
    { left := 100, right := 200, img := none },
    { left := 200, right := 300, img := some imgC } ]

/-- A complete, well-formed page: all fixed elements present, three
slides, Masonry absent (the degraded-but-functional fallback), empty
initial hash. -/
def domA : DomConfig :=
  { hasContainer := true, hasCarousel := true, hasGrid := true,
    hasCloseBtn := true, hasMasonry := false,
    slides := slidesA, carouselLeft := 0, carouselRight := 100,
    initialHash := "" }

/-- `domA` with the `#portfolio-carousel` element removed. -/
def domNoCarousel : DomConfig := { domA with hasCarousel := false }

/-- `domA` with zero `.kg-image-card` slides. -/
def domEmptySlides : DomConfig := { domA with slides := [] }

/-- The state after the script fully initializes on `domA`. -/
def stA : St := initFull domA

/-! Helper lemmas. -/

/-- `findIdx?` with start index `i` only returns indices below
`i + l.length`. -/
theorem findIdx?_lt_add {α : Type} (p : α → Bool) :
    ∀ (l : List α) (i j : Nat), List.findIdx? p l i = some j → j < i + l.length := by
  intro l
  induction l with
  | nil => intro i j h; simp [List.findIdx?] at h
  | cons x xs ih =>
    intro i j h
    rw [List.findIdx?_cons] at h
    by_cases hp : p x = true
    · rw [if_pos hp] at h
      cases h
      simp
    · rw [if_neg hp] at h
      have := ih (i + 1) j h
      simp only [List.length_cons]
      omega

/-- The geometric hit test always yields an index inside the slide list
when the list is non-empty. -/
theorem getCurrentCarouselIndex_lt (s : St) (h : s.slides ≠ []) :
    getCurrentCarouselIndex s < s.slides.length := by
  unfold getCurrentCarouselIndex
  cases hf : s.slides.findIdx?
      (fun sl => decide (sl.left ≤ s.carouselLeft + (s.carouselRight - s.carouselLeft) / 2 ∧
        s.carouselLeft + (s.carouselRight - s.carouselLeft) / 2 ≤ sl.right)) with
  | none =>
    simp only [hf]
    exact List.length_pos.2 h
  | some i =>
    simp only [hf]
    have := findIdx?_lt_add _ s.slides 0 i hf
    omega

/-- `buildGrid` makes one item per image-bearing slide. -/
theorem buildItemsAux_length (total : Nat) :
    ∀ (l : List Slide) (i : Nat),
      (buildItemsAux total i l).length = (l.filter fun sl => sl.img.isSome).length := by
  intro l
  induction l with
  | nil => intro i; rfl
  | cons sl rest ih =>
    intro i
    cases h : sl.img with
    | none => simp [buildItemsAux, h, List.filter_cons, ih]
    | some im => simp [buildItemsAux, h, List.filter_cons, ih]

/-- `buildGrid` never makes more items than slides. -/
theorem buildItemsAux_length_le (total : Nat) :
    ∀ (l : List Slide) (i : Nat), (buildItemsAux total i l).length ≤ l.length := by
  intro l
  induction l with
  | nil => intro i; exact Nat.le_refl 0
  | cons sl rest ih =>
    intro i
    cases h : sl.img with
    | none =>
      simp only [buildItemsAux, h, List.length_cons]
      exact Nat.le_succ_of_le (ih (i + 1))
    | some im =>
      simp only [buildItemsAux, h, List.length_cons]
      exact Nat.succ_le_succ (ih (i + 1))

/-- The item count equals the slide count precisely when every slide has
an image. -/
theorem buildItemsAux_length_eq_iff (total : Nat) :
    ∀ (l : List Slide) (i : Nat),
      (buildItemsAux total i l).length = l.length ↔ ∀ sl ∈ l, sl.img.isSome = true := by
  intro l
  induction l with
  | nil => intro i; simp [buildItemsAux]
  | cons sl rest ih =>
    intro i
    cases h : sl.img with
    | none =>
      simp only [buildItemsAux, h, List.length_cons]
      constructor
      · intro hlen
        exfalso
        have := buildItemsAux_length_le total rest (i + 1)
        omega
      · intro hall
        exfalso
        have := hall sl (List.mem_cons_self sl rest)
        rw [h] at this
        simp at this
    | some im =>
      simp only [buildItemsAux, h, List.length_cons, List.forall_mem_cons]
      constructor
      · intro hlen
        refine ⟨rfl, (ih (i + 1)).1 (Nat.succ_injective hlen)⟩
      · intro ⟨_, hall⟩
        exact congrArg Nat.succ ((ih (i + 1)).2 hall)

/-- Every built item records the index of an image-bearing source slide,
and clones that slide's image source. -/
theorem buildItemsAux_mem (total : Nat) :
    ∀ (l : List Slide) (i : Nat) (g : GridItem), g ∈ buildItemsAux total i l →
      ∃ j sl im, l.get? j = some sl ∧ sl.img = some im ∧
        g = mkGridItem total (i + j) im := by
  intro l
  induction l with
  | nil => intro i g hg; simp [buildItemsAux] at hg
  | cons sl rest ih =>
    intro i g hg
    cases h : sl.img with
    | none =>
      rw [show buildItemsAux total i (sl :: rest)
            = buildItemsAux total (i + 1) rest by rw [buildItemsAux, h]] at hg
      obtain ⟨j, sl', im, hj, him, hgi⟩ := ih (i + 1) g hg
      refine ⟨j + 1, sl', im, by simpa using hj, him, ?_⟩
      rw [hgi]
      congr 1
      omega
    | some im =>
      rw [show buildItemsAux total i (sl :: rest)
            = mkGridItem total i im :: buildItemsAux total (i + 1) rest by
          rw [buildItemsAux, h]] at hg
      rcases List.mem_cons.1 hg with hg | hg
      · exact ⟨0, sl, im, rfl, h, by simpa using hg⟩
      · obtain ⟨j, sl', im', hj, him, hgi⟩ := ih (i + 1) g hg
        refine ⟨j + 1, sl', im', by simpa using hj, him, ?_⟩
        rw [hgi]
        congr 1
        omega

/-- When every slide has an image, the `k`-th built item is the item for
the `k`-th slide. -/
theorem buildItemsAux_get?_all (total : Nat) :
    ∀ (l : List Slide) (i k : Nat), (∀ sl ∈ l, sl.img.isSome = true) → k < l.length →
      ∃ im, (buildItemsAux total i l).get? k = some (mkGridItem total (i + k) im) := by
  intro l
  induction l with
  | nil => intro i k _ hk; simp at hk
  | cons sl rest ih =>
    intro i k hall hk
    obtain ⟨im, him⟩ := Option.isSome_iff_exists.1 (hall sl (List.mem_cons_self sl rest))
    cases k with
    | zero => exact ⟨im, by rw [buildItemsAux, him]; rfl⟩
    | succ k =>
      obtain ⟨im', h'⟩ := ih (i + 1) k
        (fun x hx => hall x (List.mem_cons_of_mem sl hx)) (by simpa using hk)
      refine ⟨im', ?_⟩
      rw [buildItemsAux, him, List.get?_cons_succ, h']
      congr 2
      omega

/-- Stripping the sizer recovers exactly the built items. -/
theorem gridItemsOf_buildGridChildren (slides : List Slide) :
    gridItemsOf (buildGridChildren slides) = buildItemsAux slides.length 0 slides := by
  rw [buildGridChildren, gridItemsOf]
  rw [List.filterMap_cons]
  simp only
  induction buildItemsAux slides.length 0 slides with
  | nil => rfl
  | cons g gs ih => simp [List.filterMap_cons, ih]

/-- The clamp of line 188 lands on an existing slide whenever at least one
slide exists. -/
theorem slideAt_clamp (l : List Slide) (n : Int) (h : 1 ≤ l.length) :
    ∃ sl, slideAt l (JSNum.num (max 0 (min n ((l.length : Int) - 1)))) = some sl := by
  have h0 : (0 : Int) ≤ max 0 (min n ((l.length : Int) - 1)) := le_max_left _ _
  have h1 : max 0 (min n ((l.length : Int) - 1)) < (l.length : Int) := by
    have hmin : min n ((l.length : Int) - 1) ≤ (l.length : Int) - 1 := min_le_right _ _
    have hl : (1 : Int) ≤ (l.length : Int) := by exact_mod_cast h
    have := max_le (by omega : (0 : Int) ≤ (l.length : Int) - 1) hmin
    omega
  have h2 : (max 0 (min n ((l.length : Int) - 1))).toNat < l.length := by omega
  cases hg : l.get? (max 0 (min n ((l.length : Int) - 1))).toNat with
  | none =>
    rw [List.get?_eq_none] at hg
    omega
  | some sl =>
    refine ⟨sl, ?_⟩
    simp only [slideAt]
    rw [if_pos h0, hg]

/-- A completed `showCarousel` leaves the ARIA flags agreeing with the
carousel state. -/
theorem ariaInv_showCarousel (arg : JSVal) (s : St) : ariaInv (showCarousel arg s) :=
  ⟨rfl, rfl⟩

/-- A completed `showGrid` leaves the ARIA flags agreeing with the grid
state. -/
theorem ariaInv_showGrid (s : St) : ariaInv (showGrid s) :=
  ⟨rfl, rfl⟩

/-- Every bound event handler preserves the ARIA/state agreement. -/
theorem ariaInv_applyOp (op : Op) (s : St) (h : ariaInv s) : ariaInv (applyOp op s) := by
  cases op with
  | hashChange nh =>
    show ariaInv (handleHashChange nh s)
    unfold handleHashChange
    dsimp only
    split
    · exact h
    · split
      · exact ariaInv_showGrid _
      · exact ariaInv_showCarousel _ _
  | gridClick f a =>
    show ariaInv (handleGridClick f a s)
    unfold handleGridClick
    split
    · exact ariaInv_showCarousel _ _
    · exact h
  | closeClick =>
    exact ariaInv_showGrid _
  | keydown k g a =>
    show ariaInv (handleKeydown k g a s)
    unfold handleKeydown
    split
    · exact ariaInv_showGrid _
    · split
      · exact ariaInv_showCarousel _ _
      · exact h

/-- Event sequences preserve the ARIA/state agreement. -/
theorem ariaInv_applyOps (ops : List Op) : ∀ s : St, ariaInv s → ariaInv (applyOps ops s) := by
  induction ops with
  | nil => intro s h; exact h
  | cons op ops ih => intro s h; exact ih _ (ariaInv_applyOp op s h)

/-- A completed `init` (either initial view) establishes the ARIA/state
agreement. -/
theorem ariaInv_initFull (d : DomConfig) : ariaInv (initFull d) := by
  unfold initFull
  dsimp only
  split
  · exact ⟨rfl, rfl⟩
  · exact ⟨rfl, rfl⟩

/-- C4: after initialization (which performs the initial show of either
view) and any sequence of handler-driven operations (each a completed
`showCarousel` / `showGrid` or a no-op), the two containers' `aria-hidden`
flags are set, complementary, and agree with `currentView`: the carousel
is unhidden iff the state is Carousel. -/
theorem c4_aria_complementary (d : DomConfig) (ops : List Op) :
    ariaInv (applyOps ops (initFull d)) :=
  ariaInv_applyOps ops (initFull d) (ariaInv_initFull d)

/-- C6: for every integer index `n` and at least one slide, the clamp of
lines 187-188 resolves to `max 0 (min n (N - 1))`; the completed
transition scrolls to exactly that slide and reports exactly that index in
the `portfolio:viewchange` notification.  In particular index `N` resolves
to `N - 1` and index `-1` resolves to `0`. -/
theorem c6_index_clamped (s : St) (n : Int) (h : 1 ≤ s.totalSlides) :
    resolveIndex (JSVal.num (JSNum.num n)) s.totalSlides
      = JSNum.num (max 0 (min n ((s.totalSlides : Int) - 1))) ∧
    (showCarousel (JSVal.num (JSNum.num n)) s).carouselScrolls
      = s.carouselScrolls ++ [JSNum.num (max 0 (min n ((s.totalSlides : Int) - 1)))] ∧
    (showCarousel (JSVal.num (JSNum.num n)) s).dispatched
      = s.dispatched
        ++ [{ view := "carousel", index := some (JSNum.num (max 0 (min n ((s.totalSlides : Int) - 1)))) }] := by
  have hres : resolveIndex (JSVal.num (JSNum.num n)) s.slides.length
      = JSNum.num (max 0 (min n ((s.slides.length : Int) - 1))) := rfl
  obtain ⟨sl, hsl⟩ := slideAt_clamp s.slides n h
  refine ⟨hres, ?_, ?_⟩
  · simp only [showCarousel, showCarouselTimer, showCarouselSync, St.totalSlides]
    rw [hres, hsl]
  · simp only [showCarousel, showCarouselTimer, showCarouselSync, St.totalSlides]
    rw [hres]

/-- Witness for C6 at a concrete three-slide page and index 5. -/
theorem c6_index_clamped_witness :
    1 ≤ stA.totalSlides ∧
    (showCarousel (JSVal.num (JSNum.num 5)) stA).carouselScrolls
      = stA.carouselScrolls ++ [JSNum.num (max 0 (min 5 ((stA.totalSlides : Int) - 1)))] :=
  ⟨by decide, (c6_index_clamped stA 5 (by decide)).2.1⟩

/-- C7: with a carousel present but zero slides, evaluating the script
succeeds and leaves the pristine state: no grid children built, no
classes, no ARIA attributes, no Masonry instance, nothing scrolled,
pushed or dispatched, no timers, and no event listeners bound. -/
theorem c7_zero_slides_noop (d : DomConfig) (hcar : d.hasCarousel = true)
    (hsl : d.slides = []) :
    runScript d = Except.ok (pristine d) ∧
    (pristine d).gridChildren = [] ∧
    (pristine d).viewCarousel = false ∧
    (pristine d).viewGrid = false ∧
    (pristine d).viewVisible = false ∧
    (pristine d).carouselHidden = none ∧
    (pristine d).gridHidden = none ∧
    (pristine d).masonryInited = false ∧
    (pristine d).bound = false ∧
    (pristine d).dispatched = [] ∧
    (pristine d).pushed = [] ∧
    (pristine d).carouselScrolls = [] ∧
    (pristine d).timersScheduled = 0 := by
  refine ⟨?_, rfl, rfl, rfl, rfl, rfl, rfl, rfl, rfl, rfl, rfl, rfl, rfl⟩
  cases hcont : d.hasContainer with
  | false => simp [runScript, hcont]
  | true => simp [runScript, hcont, hcar, hsl]

/-- Witness for C7 at a concrete empty page. -/
theorem c7_zero_slides_noop_witness :
    runScript domEmptySlides = Except.ok (pristine domEmptySlides) :=
  (c7_zero_slides_noop domEmptySlides rfl rfl).1

/-- C8: a completed `showCarousel` dispatches exactly one
`portfolio:viewchange` with `view = "carousel"` and the resolved index; a
completed `showGrid` dispatches exactly one with `view = "grid"` and no
index; initialization (which enters the initial view via
`showCarouselInitial` / `showGridInitial`) dispatches nothing, as does the
inert no-container evaluation. -/
theorem c8_viewchange_events :
    (∀ (s : St) (arg : JSVal),
       (showCarousel arg s).dispatched
         = s.dispatched ++ [{ view := "carousel", index := some (resolveIndex arg s.totalSlides) }]) ∧
    (∀ s : St, (showGrid s).dispatched
         = s.dispatched ++ [{ view := "grid", index := none }]) ∧
    (∀ d : DomConfig, (initFull d).dispatched = []) ∧
    (∀ d : DomConfig, (pristine d).dispatched = []) := by
  refine ⟨fun s arg => rfl, fun s => rfl, fun d => ?_, fun d => rfl⟩
  unfold initFull
  dsimp only
  split
  · rfl
  · rfl

/-- C9: `showCarouselSync` / `showGridSync` (the code before the
`setTimeout`) already set `currentView` to the target state, so in the
mid-transition state after `showGrid`'s synchronous phase — before the
300 ms timer body has run — an Escape keydown is a strict no-op and in
particular triggers no second Grid transition. -/
theorem c9_sync_state_update (s : St) :
    (showCarouselSync s).currentView = View.carousel ∧
    (showGridSync s).currentView = View.grid ∧
    ∀ (b : Bool) (a : Option String),
      handleKeydown "Escape" b a (showGridSync s) = showGridSync s := by
  refine ⟨rfl, rfl, fun b a => ?_⟩
  have h1 : ¬(("Escape" : String) = "Escape" ∧ (showGridSync s).currentView = View.carousel) := by
    rintro ⟨-, hc⟩
    simp [showGridSync] at hc
  have h2 : ¬((("Escape" : String) = "Enter" ∨ ("Escape" : String) = " ") ∧ b = true) := by
    rintro ⟨h, -⟩
    rcases h with h | h <;> simp at h
  unfold handleKeydown
  rw [if_neg h1, if_neg h2]

/-- C1 counterexample: with the dual-view container present but the
`#portfolio-carousel` sub-element absent, evaluating the module throws a
`TypeError` at the slide lookup (line 16) instead of aborting silently. -/
theorem c1_missing_carousel_throws :
    runScript domNoCarousel = Except.error "TypeError: carousel is null" := rfl

/-- C1 amended: only a missing top-level container aborts silently (inert,
nothing mutated or bound).  A missing carousel sub-element throws a
`TypeError` at the slide lookup; a missing grid sub-element throws inside
`buildGrid` whenever at least one slide exists, and is silent only with
zero slides. -/
theorem c1_required_element_outcomes (d : DomConfig) :
    (d.hasContainer = false →
       runScript d = Except.ok (pristine d) ∧
       (pristine d).gridChildren = [] ∧ (pristine d).bound = false ∧
       (pristine d).dispatched = []) ∧
    (d.hasContainer = true → d.hasCarousel = false →
       runScript d = Except.error "TypeError: carousel is null") ∧
    (d.hasContainer = true → d.hasCarousel = true → d.hasGrid = false →
       (d.slides = [] → runScript d = Except.ok (pristine d)) ∧
       (d.slides ≠ [] → runScript d = Except.error "TypeError: grid is null")) := by
  refine ⟨?_, ?_, ?_⟩
  · intro hc
    exact ⟨by simp [runScript, hc], rfl, rfl, rfl⟩
  · intro hc hcar
    simp [runScript, hc, hcar]
  · intro hc hcar hg
    constructor
    · intro hsl
      simp [runScript, hc, hcar, hg, hsl]
    · intro hsl
      cases hsl' : d.slides with
      | nil => exact absurd hsl' hsl
      | cons a l => simp [runScript, hc, hcar, hg, hsl']

/-- Witness for C1 (amended) at a concrete container-less page. -/
theorem c1_required_element_outcomes_witness :
    runScript { domA with hasContainer := false }
      = Except.ok (pristine { domA with hasContainer := false }) :=
  ((c1_required_element_outcomes { domA with hasContainer := false }).1 rfl).1

/-- C2 counterexample: clicking a grid item whose `data-index` is `"abc"`
does not scroll the carousel to slide 0 and does not notify index 0 — the
scroll is skipped entirely and the notification carries `NaN`. -/
theorem c2_nan_counterexample :
    ¬ ((handleGridClick true (some "abc") stA).carouselScrolls
         = stA.carouselScrolls ++ [JSNum.num 0] ∧
       (handleGridClick true (some "abc") stA).dispatched
         = stA.dispatched ++ [{ view := "carousel", index := some (JSNum.num 0) }]) := by
  decide

/-- C2 amended: a `data-index` that does not parse yields `NaN`, which
passes the `typeof index === 'number'` guard and propagates through the
clamp; the resulting transition performs no carousel scroll at all
(`slides[NaN]` is `undefined`) and the notification carries `NaN`, not
0. -/
theorem c2_malformed_index_nan (s : St) (attr : Option String)
    (h : parseIntAttr attr = JSNum.nan) :
    (handleGridClick true attr s).carouselScrolls = s.carouselScrolls ∧
    (handleGridClick true attr s).dispatched
      = s.dispatched ++ [{ view := "carousel", index := some JSNum.nan }] := by
  have hres : resolveIndex (JSVal.num JSNum.nan) s.slides.length = JSNum.nan := rfl
  have hgc : handleGridClick true attr s = showCarousel (JSVal.num (parseIntAttr attr)) s := by
    simp [handleGridClick]
  rw [hgc, h]
  constructor
  · simp only [showCarousel, showCarouselTimer, showCarouselSync, St.totalSlides]
    rw [hres]
    simp [slideAt]
  · simp only [showCarousel, showCarouselTimer, showCarouselSync, St.totalSlides]
    rw [hres]

/-- Witness for C2 (amended) at a concrete malformed attribute. -/
theorem c2_malformed_index_nan_witness :
    (handleGridClick true (some "abc") stA).carouselScrolls = stA.carouselScrolls ∧
    (handleGridClick true (some "abc") stA).dispatched
      = stA.dispatched ++ [{ view := "carousel", index := some JSNum.nan }] :=
  c2_malformed_index_nan stA (some "abc") (by decide)

/-- C3 counterexample: from the initialized page, enter Grid via the close
control, then navigate (back/forward) to hash `#bar`: the handler performs
a completed Grid→Carousel transition (two notifications have fired), yet
the final hash is `#bar`, not empty. -/
theorem c3_nonempty_hash_counterexample :
    (applyOps [Op.closeClick, Op.hashChange "#bar"] stA).currentView = View.carousel ∧
    (applyOps [Op.closeClick, Op.hashChange "#bar"] stA).dispatched.length = 2 ∧
    (applyOps [Op.closeClick, Op.hashChange "#bar"] stA).hash = "#bar" ∧
    ¬ (applyOps [Op.closeClick, Op.hashChange "#bar"] stA).hash = "" := by
  decide

/-- C3 amended: a completed transition into Carousel clears the hash — and
pushes exactly one history entry — precisely when the hash at that moment
is `#grid`; any other hash is left unchanged with no history entry, so no
redundant entries are ever pushed but the hash afterwards need not be
empty. -/
theorem c3_hash_cleared_iff_grid (s : St) (arg : JSVal) :
    ((showCarousel arg s).hash = (if s.hash = "#grid" then "" else s.hash)) ∧
    ((showCarousel arg s).pushed = s.pushed ++ (if s.hash = "#grid" then [""] else [])) ∧
    (s.hash ≠ "#grid" →
       (showCarousel arg s).hash = s.hash ∧ (showCarousel arg s).pushed = s.pushed) := by
  refine ⟨rfl, rfl, fun h => ⟨?_, ?_⟩⟩
  · simp only [showCarousel, showCarouselTimer, showCarouselSync]
    rw [if_neg h]
  · simp only [showCarousel, showCarouselTimer, showCarouselSync]
    rw [if_neg h]
    exact List.append_nil _

/-- Witness for C3 (amended) at a concrete state whose hash is empty. -/
theorem c3_hash_cleared_iff_grid_witness :
    (showCarousel (JSVal.num (JSNum.num 0)) stA).hash = stA.hash ∧
    (showCarousel (JSVal.num (JSNum.num 0)) stA).pushed = stA.pushed :=
  (c3_hash_cleared_iff_grid stA (JSVal.num (JSNum.num 0))).2.2 (by decide)

/-- C5 counterexample: with the page initialized in Carousel view (visible
marker present), a Carousel→Carousel request's synchronous phase removes
the `view-visible` marker and schedules the 300 ms timer — the full fade
sequence, not a cheap scroll-only path. -/
theorem c5_same_state_fades_counterexample :
    stA.currentView = View.carousel ∧
    stA.viewVisible = true ∧
    (showCarouselSync stA).viewVisible = false ∧
    (showCarouselSync stA).timersScheduled = stA.timersScheduled + 1 := by
  decide

/-- C5 amended: `showCarousel` has no same-state special case: its
behaviour is identical whatever the current state (in particular for
Carousel→Carousel it runs the same full sequence as a cross-mode
transition); whenever invoked it removes the visible marker and schedules
the 300 ms timer before re-centering. -/
theorem c5_same_state_full_sequence (s : St) (arg : JSVal) :
    (s.currentView = View.carousel →
       (showCarouselSync s).viewVisible = false ∧
       (showCarouselSync s).timersScheduled = s.timersScheduled + 1) ∧
    (∀ v : View, showCarousel arg s = showCarousel arg { s with currentView := v }) := by
  refine ⟨fun _ => ⟨rfl, rfl⟩, fun v => ?_⟩
  cases s
  rfl

/-- Witness for C5 (amended) at the concrete initialized page. -/
theorem c5_same_state_full_sequence_witness :
    (showCarouselSync stA).viewVisible = false ∧
    (showCarouselSync stA).timersScheduled = stA.timersScheduled + 1 :=
  (c5_same_state_full_sequence stA (JSVal.num (JSNum.num 1))).1 (by decide)

/-- C10: `buildGrid` creates exactly one item per image-bearing slide,
each recording its source slide's index in `data-index` and cloning that
slide's image; the item count equals the slide count iff every slide has
an image; under that precondition the `k`-th item is the item for slide
`k`, and `showGrid`'s positional lookup `gridItems[currentIndex]` scrolls
to the item whose `data-index` is exactly the current carousel index. -/
theorem c10_buildGrid_items :
    (∀ slides : List Slide,
       (buildGridItems slides).length = (slides.filter fun sl => sl.img.isSome).length) ∧
    (∀ (slides : List Slide) (g : GridItem), g ∈ buildGridItems slides →
       ∃ sl im, slides.get? g.dataIndex = some sl ∧ sl.img = some im ∧ g.src = im.src) ∧
    (∀ slides : List Slide,
       (buildGridItems slides).length = slides.length ↔ ∀ sl ∈ slides, sl.img.isSome = true) ∧
    (∀ slides : List Slide, (∀ sl ∈ slides, sl.img.isSome = true) →
       ∀ k, k < slides.length →
         ((buildGridItems slides).get? k).map GridItem.dataIndex = some k) ∧
    (∀ s : St, s.gridChildren = buildGridChildren s.slides →
       (∀ sl ∈ s.slides, sl.img.isSome = true) → s.slides ≠ [] →
         (showGrid s).gridScrolls = s.gridScrolls ++ [getCurrentCarouselIndex s]) := by
  refine ⟨?_, ?_, ?_, ?_, ?_⟩
  · intro slides
    rw [buildGridItems, gridItemsOf_buildGridChildren, buildItemsAux_length]
  · intro slides g hg
    rw [buildGridItems, gridItemsOf_buildGridChildren] at hg
    obtain ⟨j, sl, im, hj, him, hgi⟩ := buildItemsAux_mem slides.length slides 0 g hg
    have hdi : g.dataIndex = j := by rw [hgi]; simp [mkGridItem]
    have hsrc : g.src = im.src := by rw [hgi]; rfl
    exact ⟨sl, im, by rw [hdi]; exact hj, him, hsrc⟩
  · intro slides
    rw [buildGridItems, gridItemsOf_buildGridChildren]
    exact buildItemsAux_length_eq_iff slides.length slides 0
  · intro slides hall k hk
    rw [buildGridItems, gridItemsOf_buildGridChildren]
    obtain ⟨im, h'⟩ := buildItemsAux_get?_all slides.length slides 0 k hall hk
    rw [h']
    simp [mkGridItem]
  · intro s hgc hall hne
    have hidx := getCurrentCarouselIndex_lt s hne
    obtain ⟨im, h'⟩ :=
      buildItemsAux_get?_all s.slides.length s.slides 0 (getCurrentCarouselIndex s) hall hidx
    simp only [showGrid, showGridTimer, showGridSync]
    rw [hgc, gridItemsOf_buildGridChildren, h']
    simp [mkGridItem]

/-- Witness for C10 at a concrete slide list with one image-less slide:
only 2 of 3 slides produce grid items. -/
theorem c10_buildGrid_items_witness :
    (buildGridItems slidesMixed).length = 2 ∧
    ¬ (buildGridItems slidesMixed).length = slidesMixed.length :=
  ⟨(c10_buildGrid_items.1 slidesMixed).trans (by decide), by decide⟩

/-- Witness for C4 at a concrete page and a close-button click. -/
theorem c4_aria_complementary_witness :
    ariaInv (applyOps [Op.closeClick] (initFull domA)) :=
  c4_aria_complementary domA [Op.closeClick]

/-- Witness for C8 at the concrete initialized page. -/
theorem c8_viewchange_events_witness :
    (showGrid stA).dispatched = stA.dispatched ++ [{ view := "grid", index := none }] :=
  c8_viewchange_events.2.1 stA

/-- Witness for C9 at the concrete initialized page. -/
theorem c9_sync_state_update_witness :
    handleKeydown "Escape" false none (showGridSync stA) = showGridSync stA :=
  (c9_sync_state_update stA).2.2 false none
